import Mathlib

/-!
Verification of the 5-stage pipeline simulator with hazard handling
(`src/test3/test3.c` is the authoritative full-ISA revision: MOV / ADD /
SUB / MUL / LOAD / STORE with STORE-to-LOAD hazard stalls).

The embedding follows the C source function by function:

* `resolve_operand`, `decode_stage`, `execute_stage`, `memory_stage`,
  `wb_stage`, `fetch_stage`, `advance_pipeline` mirror the functions of the
  same names in `test3.c`;
* `step` is one iteration of the `while` loop in `main` (WB, then MEM,
  then EX, then ID/hazard check, then IF, then latch advancement);
* `primeCPU` is the pre-loop priming (first fetch into IF/ID and the
  unconditional `PC++`);
* `run` executes the loop with explicit fuel and counts cycles and stalls.

`test3.c`'s `memory_stage` reads and writes the file-scope global arrays
`R[]` and `memory[]` (distinct from the `CPU` struct's register file used
by every other stage); those globals are the `gR` and `gmemory` fields
here.  The helper `get_register_address` that `memory_stage` calls is not
defined anywhere in the repository and is modelled from the spec below.
-/

namespace Test3

inductive OpCode where
  | OP_NOOP
  | OP_MOV
  | OP_ADD
  | OP_SUB
  | OP_MUL
  | OP_LOAD
  | OP_STORE
  deriving DecidableEq

inductive FwdSrc where
  | SRC_NONE
  | SRC_REG
  | SRC_MEM
  | SRC_WB
  deriving DecidableEq

def NUM_REGS : Int := 16

def REG_UNUSED : Int := -1

def REGISTER_MEMORY_BASE : Int := 1000

/-- `Instruction` from `test3.c` (the diagnostic `text` field is dropped:
it is never read by the engine). -/
structure Instruction where
  op : OpCode
  rd : Int
  rs1 : Int
  rs2 : Int
  imm : Int
  valid : Bool
  deriving DecidableEq

/-- `reg_valid` from `test3.c`: index is the unused sentinel or in range. -/
def reg_valid (r : Int) : Bool :=
  decide (r = REG_UNUSED ∨ (0 ≤ r ∧ r < NUM_REGS))

/-- `make_nop` from `test3.c`. -/
def make_nop : Instruction :=
  { op := OpCode.OP_NOOP, rd := REG_UNUSED, rs1 := REG_UNUSED, rs2 := REG_UNUSED,
    imm := 0, valid := false }

/-- `StageLatch` from `test3.c`. -/
structure StageLatch where
  inst : Instruction
  alu_result : Int
  val_rs1 : Int
  val_rs2 : Int
  src_rs1 : FwdSrc
  src_rs2 : FwdSrc
  deriving DecidableEq

/-- `make_nop_latch` from `test3.c`. -/
def make_nop_latch : StageLatch :=
  { inst := make_nop, alu_result := 0, val_rs1 := 0, val_rs2 := 0,
    src_rs1 := FwdSrc.SRC_NONE, src_rs2 := FwdSrc.SRC_NONE }

/-- The `CPU` struct of `test3.c`, together with the file-scope globals
`R[]` (`gR`) and `memory[]` (`gmemory`) that `memory_stage` accesses.
Arrays are total maps; the program counter is a natural number (the C
`int PC` is only ever set to 0 or incremented). -/
structure CPU where
  R : Int → Int
  program : List Instruction
  PC : Nat
  pipeline_IF_ID : StageLatch
  pipeline_ID_EX : StageLatch
  pipeline_EX_MEM : StageLatch
  pipeline_MEM_WB : StageLatch
  gR : Int → Int
  gmemory : Int → Int

/-- Pointwise array update. -/
def setmap (f : Int → Int) (i v : Int) : Int → Int :=
  fun j => if j = i then v else f j

/-- `alu_execute` from `test3.c`. -/
def alu_execute (op : OpCode) (a b imm : Int) : Int :=
  match op with
  | OpCode.OP_MOV => imm
  | OpCode.OP_ADD => a + b
  | OpCode.OP_SUB => a - b
  | OpCode.OP_MUL => a * b
  | OpCode.OP_LOAD => a + imm
  | OpCode.OP_STORE => a + imm
  | OpCode.OP_NOOP => 0

/-- `fetch_stage` from `test3.c`: the program word at `PC`, or a NOP once
the program is exhausted. -/
def fetch_stage (cpu : CPU) : Instruction :=
  if h : cpu.PC < cpu.program.length then cpu.program.get ⟨cpu.PC, h⟩ else make_nop

/-- `Resolved` from `test3.c`. -/
structure Resolved where
  value : Int
  src : FwdSrc
  deriving DecidableEq

/-- `resolve_operand` from `test3.c`: EX/MEM forwarding (unless the
producer is a LOAD) first, then MEM/WB forwarding, then the register
file. -/
def resolve_operand (cpu : CPU) (reg : Int) : Resolved :=
  if reg = REG_UNUSED then
    { value := 0, src := FwdSrc.SRC_NONE }
  else if cpu.pipeline_EX_MEM.inst.valid = true ∧ cpu.pipeline_EX_MEM.inst.rd = reg ∧
          cpu.pipeline_EX_MEM.inst.rd ≠ REG_UNUSED ∧
          cpu.pipeline_EX_MEM.inst.op ≠ OpCode.OP_LOAD then
    { value := cpu.pipeline_EX_MEM.alu_result, src := FwdSrc.SRC_MEM }
  else if cpu.pipeline_MEM_WB.inst.valid = true ∧ cpu.pipeline_MEM_WB.inst.rd = reg ∧
          cpu.pipeline_MEM_WB.inst.rd ≠ REG_UNUSED then
    { value := cpu.pipeline_MEM_WB.alu_result, src := FwdSrc.SRC_WB }
  else
    { value := cpu.R reg, src := FwdSrc.SRC_REG }

/-- `DecodeResult` from `test3.c` (the `stall_reason` diagnostic string is
dropped). -/
structure DecodeResult where
  next : StageLatch
  stall : Bool

/-- `decode_stage` from `test3.c`: pass-through, with a stall exactly when
ID/EX holds a valid STORE and IF/ID holds a valid LOAD with the same base
register (`rs2` of the STORE, `rs1` of the LOAD) and the same offset. -/
def decode_stage (pipeline_IF_ID pipeline_ID_EX : StageLatch) : DecodeResult :=
  { next := pipeline_IF_ID
    stall := decide (pipeline_ID_EX.inst.valid = true ∧
                     pipeline_ID_EX.inst.op = OpCode.OP_STORE ∧
                     pipeline_IF_ID.inst.valid = true ∧
                     pipeline_IF_ID.inst.op = OpCode.OP_LOAD ∧
                     pipeline_ID_EX.inst.rs2 = pipeline_IF_ID.inst.rs1 ∧
                     pipeline_ID_EX.inst.imm = pipeline_IF_ID.inst.imm) }

/-- `execute_stage` from `test3.c` (the unused branch fields of
`ExecResult` are dropped; the result is the next EX/MEM latch). -/
def execute_stage (cpu : CPU) (pipeline_ID_EX : StageLatch) : StageLatch :=
  if pipeline_ID_EX.inst.valid = false ∨ pipeline_ID_EX.inst.op = OpCode.OP_NOOP then
    { pipeline_ID_EX with val_rs1 := 0, val_rs2 := 0,
                          src_rs1 := FwdSrc.SRC_NONE, src_rs2 := FwdSrc.SRC_NONE,
                          alu_result := 0 }
  else
    let rs1 := resolve_operand cpu pipeline_ID_EX.inst.rs1
    let rs2 := resolve_operand cpu pipeline_ID_EX.inst.rs2
    { pipeline_ID_EX with
        val_rs1 := rs1.value, val_rs2 := rs2.value,
        src_rs1 := rs1.src, src_rs2 := rs2.src,
        alu_result := alu_execute pipeline_ID_EX.inst.op rs1.value rs2.value
                        pipeline_ID_EX.inst.imm }

/-- Modelled from the spec: `get_register_address` is called by
`memory_stage` in `test3.c` but defined nowhere in the repository.  Per
the source's `#define REGISTER_MEMORY_BASE 1000` with its comment
"starting address for registers in memory" and the spec's "memory by a
computed effective address, offset from a fixed base", register `r`'s
home address is the fixed base plus the register index. -/
def get_register_address (r : Int) : Int :=
  REGISTER_MEMORY_BASE + r

/-- Result of `memory_stage`: the next MEM/WB latch plus the updated
global arrays. -/
structure MemEffect where
  next : StageLatch
  gR : Int → Int
  gmemory : Int → Int

/-- `memory_stage` from `test3.c`.  Note the code mutates the file-scope
globals: a STORE puts the global `R[rs1]` into global memory at
`get_register_address(rs2) + imm`; a LOAD puts the global memory word at
`get_register_address(rs1) + imm` straight into the global `R[rd]`.  In
every branch the latch passes through with its `alu_result` unchanged. -/
def memory_stage (pipeline_EX_MEM : StageLatch) (gR gmemory : Int → Int) : MemEffect :=
  if pipeline_EX_MEM.inst.valid = false ∨ pipeline_EX_MEM.inst.op = OpCode.OP_NOOP then
    { next := pipeline_EX_MEM, gR := gR, gmemory := gmemory }
  else if pipeline_EX_MEM.inst.op = OpCode.OP_STORE then
    let effective_address :=
      get_register_address pipeline_EX_MEM.inst.rs2 + pipeline_EX_MEM.inst.imm
    { next := pipeline_EX_MEM, gR := gR,
      gmemory := setmap gmemory effective_address (gR pipeline_EX_MEM.inst.rs1) }
  else if pipeline_EX_MEM.inst.op = OpCode.OP_LOAD then
    let effective_address :=
      get_register_address pipeline_EX_MEM.inst.rs1 + pipeline_EX_MEM.inst.imm
    { next := pipeline_EX_MEM,
      gR := setmap gR pipeline_EX_MEM.inst.rd (gmemory effective_address),
      gmemory := gmemory }
  else
    { next := { pipeline_EX_MEM with alu_result := pipeline_EX_MEM.alu_result },
      gR := gR, gmemory := gmemory }

/-- `wb_stage` from `test3.c`: commit the MEM/WB latch's `alu_result` to
the CPU register file when the latch holds a valid non-NOP instruction
with a destination register. -/
def wb_stage (cpu : CPU) : CPU :=
  if cpu.pipeline_MEM_WB.inst.valid = true ∧
     cpu.pipeline_MEM_WB.inst.op ≠ OpCode.OP_NOOP ∧
     cpu.pipeline_MEM_WB.inst.rd ≠ REG_UNUSED then
    { cpu with R := setmap cpu.R cpu.pipeline_MEM_WB.inst.rd cpu.pipeline_MEM_WB.alu_result }
  else cpu

/-- `advance_pipeline` from `test3.c`: latch shifts, with the stall case
rewriting ID/EX to a bubble, holding IF/ID, and suppressing the PC
increment. -/
def advance_pipeline (cpu : CPU) (exNext memNext : StageLatch)
    (fetched_inst : Instruction) (dec : DecodeResult) : CPU :=
  { cpu with
      pipeline_MEM_WB := memNext
      pipeline_EX_MEM := exNext
      pipeline_ID_EX := if dec.stall then make_nop_latch else cpu.pipeline_IF_ID
      pipeline_IF_ID := if dec.stall then cpu.pipeline_IF_ID
                        else { cpu.pipeline_IF_ID with inst := fetched_inst }
      PC := if dec.stall then cpu.PC
            else if cpu.PC < cpu.program.length then cpu.PC + 1 else cpu.PC }

/-- `pipeline_is_empty` from `test3.c`. -/
def pipeline_is_empty (cpu : CPU) : Bool :=
  !cpu.pipeline_IF_ID.inst.valid && !cpu.pipeline_ID_EX.inst.valid &&
  !cpu.pipeline_EX_MEM.inst.valid && !cpu.pipeline_MEM_WB.inst.valid

/-- The `while` loop guard of `main` in `test3.c`. -/
def loopCond (cpu : CPU) : Bool :=
  decide (cpu.PC < cpu.program.length) || !pipeline_is_empty cpu

/-- The stall decision of a cycle starting from `cpu` (the decode stage
reads the IF/ID and ID/EX latches as they stand at the top of the loop;
WB and MEM touch neither). -/
def stallOf (cpu : CPU) : Bool :=
  (decode_stage cpu.pipeline_IF_ID cpu.pipeline_ID_EX).stall

/-- One iteration of the `while` loop of `main` in `test3.c`: WB commits,
MEM runs on the current EX/MEM latch, EX runs on the current ID/EX latch
(forwarding from the current EX/MEM and MEM/WB latches and the post-WB
register file), decode decides the stall from the current IF/ID and ID/EX
latches, IF fetches, and then all latches advance. -/
def step (cpu : CPU) : CPU :=
  let cpu1 := wb_stage cpu
  let me := memory_stage cpu1.pipeline_EX_MEM cpu1.gR cpu1.gmemory
  let cpu2 := { cpu1 with gR := me.gR, gmemory := me.gmemory }
  let exNext := execute_stage cpu2 cpu2.pipeline_ID_EX
  let dec := decode_stage cpu2.pipeline_IF_ID cpu2.pipeline_ID_EX
  let fetched := fetch_stage cpu2
  advance_pipeline cpu2 exNext me.next fetched dec

/-- The zero-initialised CPU of `main` (registers, memory and globals
zeroed, PC 0, all latches bubbles). -/
def initCPU (prog : List Instruction) : CPU :=
  { R := fun _ => 0, program := prog, PC := 0,
    pipeline_IF_ID := make_nop_latch, pipeline_ID_EX := make_nop_latch,
    pipeline_EX_MEM := make_nop_latch, pipeline_MEM_WB := make_nop_latch,
    gR := fun _ => 0, gmemory := fun _ => 0 }

/-- The pre-loop priming in `main`: first fetch goes into IF/ID and the PC
is incremented once, unconditionally. -/
def primeCPU (prog : List Instruction) : CPU :=
  let c := initCPU prog
  { c with pipeline_IF_ID := { c.pipeline_IF_ID with inst := fetch_stage c },
           PC := c.PC + 1 }

/-- Fuelled execution of the simulation loop, returning the final state,
the number of cycles executed, and the number of stall cycles taken. -/
def run : Nat → CPU → CPU × Nat × Nat
  | 0, cpu => (cpu, 0, 0)
  | Nat.succ fuel, cpu =>
    if loopCond cpu = true then
      let r := run fuel (step cpu)
      (r.1, r.2.1 + 1, r.2.2 + (if stallOf cpu then 1 else 0))
    else (cpu, 0, 0)

/-- Iterated `step` (the state at the top of cycle `n + 1`). -/
def stepN : Nat → CPU → CPU
  | 0, cpu => cpu
  | Nat.succ n, cpu => stepN n (step cpu)

/-- The whole simulation of a program, with fuel large enough for any
well-formed program of that length (proved below). -/
def simulate (prog : List Instruction) : CPU × Nat × Nat :=
  run (2 * (prog.length + 4)) (primeCPU prog)

end Test3

namespace Test3

/-! ### Structural lemmas about the stages and one pipeline step -/

theorem wb_stage_pipeline_IF_ID (cpu : CPU) :
    (wb_stage cpu).pipeline_IF_ID = cpu.pipeline_IF_ID := by
  unfold wb_stage; split <;> rfl

theorem wb_stage_pipeline_ID_EX (cpu : CPU) :
    (wb_stage cpu).pipeline_ID_EX = cpu.pipeline_ID_EX := by
  unfold wb_stage; split <;> rfl

theorem wb_stage_pipeline_EX_MEM (cpu : CPU) :
    (wb_stage cpu).pipeline_EX_MEM = cpu.pipeline_EX_MEM := by
  unfold wb_stage; split <;> rfl

theorem wb_stage_pipeline_MEM_WB (cpu : CPU) :
    (wb_stage cpu).pipeline_MEM_WB = cpu.pipeline_MEM_WB := by
  unfold wb_stage; split <;> rfl

theorem wb_stage_program (cpu : CPU) : (wb_stage cpu).program = cpu.program := by
  unfold wb_stage; split <;> rfl

theorem wb_stage_PC (cpu : CPU) : (wb_stage cpu).PC = cpu.PC := by
  unfold wb_stage; split <;> rfl

theorem wb_stage_gR (cpu : CPU) : (wb_stage cpu).gR = cpu.gR := by
  unfold wb_stage; split <;> rfl

theorem wb_stage_gmemory (cpu : CPU) : (wb_stage cpu).gmemory = cpu.gmemory := by
  unfold wb_stage; split <;> rfl

theorem memory_stage_next_inst (l : StageLatch) (gR gmemory : Int → Int) :
    (memory_stage l gR gmemory).next.inst = l.inst := by
  unfold memory_stage; split_ifs <;> rfl

theorem execute_stage_inst (cpu : CPU) (l : StageLatch) :
    (execute_stage cpu l).inst = l.inst := by
  unfold execute_stage; split <;> rfl

theorem decode_stage_next (a b : StageLatch) : (decode_stage a b).next = a := rfl

theorem step_program (cpu : CPU) : (step cpu).program = cpu.program := by
  simp [step, advance_pipeline, wb_stage_program]

theorem step_PC (cpu : CPU) :
    (step cpu).PC = if stallOf cpu then cpu.PC
                    else if cpu.PC < cpu.program.length then cpu.PC + 1 else cpu.PC := by
  simp [step, advance_pipeline, stallOf, wb_stage_PC, wb_stage_program,
    wb_stage_pipeline_IF_ID, wb_stage_pipeline_ID_EX]

theorem step_pipeline_MEM_WB (cpu : CPU) :
    (step cpu).pipeline_MEM_WB =
      (memory_stage cpu.pipeline_EX_MEM cpu.gR cpu.gmemory).next := by
  simp [step, advance_pipeline, wb_stage_pipeline_EX_MEM, wb_stage_gR, wb_stage_gmemory]

theorem step_pipeline_EX_MEM_inst (cpu : CPU) :
    (step cpu).pipeline_EX_MEM.inst = cpu.pipeline_ID_EX.inst := by
  simp [step, advance_pipeline, execute_stage_inst, wb_stage_pipeline_ID_EX]

theorem step_pipeline_ID_EX (cpu : CPU) :
    (step cpu).pipeline_ID_EX =
      if stallOf cpu then make_nop_latch else cpu.pipeline_IF_ID := by
  simp [step, advance_pipeline, stallOf, wb_stage_pipeline_IF_ID, wb_stage_pipeline_ID_EX]

theorem step_pipeline_IF_ID (cpu : CPU) :
    (step cpu).pipeline_IF_ID =
      if stallOf cpu then cpu.pipeline_IF_ID
      else { cpu.pipeline_IF_ID with inst := fetch_stage cpu } := by
  simp [step, advance_pipeline, stallOf, fetch_stage, wb_stage_pipeline_IF_ID,
    wb_stage_pipeline_ID_EX, wb_stage_PC, wb_stage_program]

theorem step_R (cpu : CPU) : (step cpu).R = (wb_stage cpu).R := by
  simp [step, advance_pipeline]

theorem step_gR (cpu : CPU) :
    (step cpu).gR = (memory_stage cpu.pipeline_EX_MEM cpu.gR cpu.gmemory).gR := by
  simp [step, advance_pipeline, wb_stage_pipeline_EX_MEM, wb_stage_gR, wb_stage_gmemory]

theorem step_gmemory (cpu : CPU) :
    (step cpu).gmemory = (memory_stage cpu.pipeline_EX_MEM cpu.gR cpu.gmemory).gmemory := by
  simp [step, advance_pipeline, wb_stage_pipeline_EX_MEM, wb_stage_gR, wb_stage_gmemory]

theorem stallOf_iff (cpu : CPU) :
    stallOf cpu = true ↔
      (cpu.pipeline_ID_EX.inst.valid = true ∧
       cpu.pipeline_ID_EX.inst.op = OpCode.OP_STORE ∧
       cpu.pipeline_IF_ID.inst.valid = true ∧
       cpu.pipeline_IF_ID.inst.op = OpCode.OP_LOAD ∧
       cpu.pipeline_ID_EX.inst.rs2 = cpu.pipeline_IF_ID.inst.rs1 ∧
       cpu.pipeline_ID_EX.inst.imm = cpu.pipeline_IF_ID.inst.imm) := by
  simp [stallOf, decode_stage]

end Test3

namespace Test3

/-! ### The drain measure and the cycle-count theorem -/

/-- All program words are valid instructions (the loader contract:
`program_load` only admits instructions with `valid = 1`). -/
def WFprog (cpu : CPU) : Prop := ∀ i ∈ cpu.program, i.valid = true

/-- Remaining work: cycles the loop still needs when no stall intervenes
(each stall cycle adds one). -/
def phi (cpu : CPU) : Nat :=
  if cpu.PC < cpu.program.length then (cpu.program.length - cpu.PC) + 4
  else if cpu.pipeline_IF_ID.inst.valid = true then 4
  else if cpu.pipeline_ID_EX.inst.valid = true then 3
  else if cpu.pipeline_EX_MEM.inst.valid = true then 2
  else if cpu.pipeline_MEM_WB.inst.valid = true then 1
  else 0

theorem loopCond_false_iff (cpu : CPU) : loopCond cpu = false ↔ phi cpu = 0 := by
  unfold loopCond pipeline_is_empty phi
  rcases Nat.lt_or_ge cpu.PC cpu.program.length with h | h
  · simp [h]
  · have h' : ¬ cpu.PC < cpu.program.length := Nat.not_lt.mpr h
    cases h1 : cpu.pipeline_IF_ID.inst.valid <;>
      cases h2 : cpu.pipeline_ID_EX.inst.valid <;>
        cases h3 : cpu.pipeline_EX_MEM.inst.valid <;>
          cases h4 : cpu.pipeline_MEM_WB.inst.valid <;>
            simp [h', h1, h2, h3, h4]

theorem wf_step (cpu : CPU) (h : WFprog cpu) : WFprog (step cpu) := by
  intro i hi
  rw [step_program] at hi
  exact h i hi

theorem fetch_stage_valid (cpu : CPU) (hwf : WFprog cpu) :
    (fetch_stage cpu).valid = decide (cpu.PC < cpu.program.length) := by
  unfold fetch_stage
  split
  case isTrue h =>
    simp only [h, decide_eq_true_eq]
    exact hwf _ (cpu.program.get_mem _ _)
  case isFalse h => simp [h, make_nop]

theorem stall_latches_valid (cpu : CPU) (h : stallOf cpu = true) :
    cpu.pipeline_ID_EX.inst.valid = true ∧ cpu.pipeline_IF_ID.inst.valid = true := by
  have := (stallOf_iff cpu).mp h
  exact ⟨this.1, this.2.2.1⟩

/-- A bubble in ID/EX can never raise the hazard, so the cycle right
after a stall does not stall again. -/
theorem stall_step_no_stall (cpu : CPU) (h : stallOf cpu = true) :
    stallOf (step cpu) = false := by
  rcases hs : stallOf (step cpu) with _ | _
  · rfl
  · exfalso
    have h1 := (stall_latches_valid _ hs).1
    rw [step_pipeline_ID_EX, h] at h1
    simp [make_nop_latch, make_nop] at h1

/-- A stall cycle keeps the drain measure unchanged. -/
theorem phi_step_stall (cpu : CPU) (h : stallOf cpu = true) :
    phi (step cpu) = phi cpu := by
  have hv1 := (stall_latches_valid cpu h).2
  unfold phi
  rw [step_program, step_PC, step_pipeline_IF_ID, h]
  simp only [if_pos rfl, if_true]
  rcases Nat.lt_or_ge cpu.PC cpu.program.length with hpc | hpc
  · simp [hpc]
  · have h' : ¬ cpu.PC < cpu.program.length := Nat.not_lt.mpr hpc
    simp [h', hv1]

/-- A non-stall cycle decreases the drain measure by exactly one. -/
theorem phi_step_go (cpu : CPU) (hwf : WFprog cpu) (hl : loopCond cpu = true)
    (h : stallOf cpu = false) : phi (step cpu) + 1 = phi cpu := by
  have hv1 : (step cpu).pipeline_IF_ID.inst.valid = decide (cpu.PC < cpu.program.length) := by
    rw [step_pipeline_IF_ID, h]
    simpa using fetch_stage_valid cpu hwf
  have hv2 : (step cpu).pipeline_ID_EX.inst.valid = cpu.pipeline_IF_ID.inst.valid := by
    rw [step_pipeline_ID_EX, h]; simp
  have hv3 : (step cpu).pipeline_EX_MEM.inst.valid = cpu.pipeline_ID_EX.inst.valid := by
    rw [step_pipeline_EX_MEM_inst]
  have hv4 : (step cpu).pipeline_MEM_WB.inst.valid = cpu.pipeline_EX_MEM.inst.valid := by
    rw [step_pipeline_MEM_WB, memory_stage_next_inst]
  have hPC : (step cpu).PC = if cpu.PC < cpu.program.length then cpu.PC + 1 else cpu.PC := by
    rw [step_PC, h]; simp
  unfold phi
  rw [step_program, hPC, hv1, hv2, hv3, hv4]
  rcases Nat.lt_or_ge cpu.PC cpu.program.length with hpc | hpc
  · rcases Nat.lt_or_ge (cpu.PC + 1) cpu.program.length with hpc2 | hpc2
    · simp only [hpc, if_true, if_pos hpc2]
      omega
    · have h2 : ¬ cpu.PC + 1 < cpu.program.length := Nat.not_lt.mpr hpc2
      simp [hpc, h2]
      omega
  · have h' : ¬ cpu.PC < cpu.program.length := Nat.not_lt.mpr hpc
    simp only [h', if_false, decide_eq_true_eq]
    cases h1 : cpu.pipeline_IF_ID.inst.valid
    · cases h2 : cpu.pipeline_ID_EX.inst.valid
      · cases h3 : cpu.pipeline_EX_MEM.inst.valid
        · cases h4 : cpu.pipeline_MEM_WB.inst.valid
          · exfalso
            have hzero : loopCond cpu = false := by
              rw [loopCond_false_iff]
              unfold phi
              simp [h', h1, h2, h3, h4]
            rw [hzero] at hl; cases hl
          · simp [h4]
        · simp [h3]
      · simp [h2]
    · simp [h1]

end Test3

namespace Test3

theorem run_succ_of_loopCond (cpu : CPU) (f : Nat) (h : loopCond cpu = true) :
    run (f + 1) cpu =
      ((run f (step cpu)).1, (run f (step cpu)).2.1 + 1,
       (run f (step cpu)).2.2 + (if stallOf cpu then 1 else 0)) := by
  simp [run, h]

theorem run_succ_of_done (cpu : CPU) (f : Nat) (h : loopCond cpu = false) :
    run (f + 1) cpu = (cpu, 0, 0) := by
  simp [run, h]

/-- The simulation loop, started anywhere with enough fuel, executes
exactly `phi` cycles plus one cycle per stall taken, and ends with the
loop guard false (it terminates). -/
theorem run_correct :
    ∀ (k : Nat) (cpu : CPU), phi cpu = k → WFprog cpu → ∀ fuel, 2 * k ≤ fuel →
      (run fuel cpu).2.1 = k + (run fuel cpu).2.2 ∧
      loopCond (run fuel cpu).1 = false := by
  intro k
  induction k using Nat.strong_induction_on with
  | _ k ih =>
    intro cpu hphi hwf fuel hfuel
    by_cases hl : loopCond cpu = true
    · have hk0 : k ≠ 0 := by
        intro h0
        have hfalse : loopCond cpu = false := (loopCond_false_iff cpu).mpr (h0 ▸ hphi)
        simp [hfalse] at hl
      obtain ⟨m, rfl⟩ : ∃ m, k = m + 1 := ⟨k - 1, by omega⟩
      obtain ⟨f, rfl⟩ : ∃ f, fuel = f + 1 := ⟨fuel - 1, by omega⟩
      rw [run_succ_of_loopCond cpu f hl]
      by_cases hs : stallOf cpu = true
      · have hphi1 : phi (step cpu) = m + 1 := by rw [phi_step_stall cpu hs, hphi]
        have hs1 : stallOf (step cpu) = false := stall_step_no_stall cpu hs
        have hl1 : loopCond (step cpu) = true := by
          cases hc : loopCond (step cpu)
          · exfalso
            have := (loopCond_false_iff _).mp hc
            omega
          · rfl
        obtain ⟨f2, rfl⟩ : ∃ f2, f = f2 + 1 := ⟨f - 1, by omega⟩
        rw [run_succ_of_loopCond (step cpu) f2 hl1]
        have hphi2 : phi (step (step cpu)) = m := by
          have := phi_step_go (step cpu) (wf_step cpu hwf) hl1 hs1
          omega
        obtain ⟨hcyc, hdone⟩ :=
          ih m (by omega) (step (step cpu)) hphi2 (wf_step _ (wf_step _ hwf)) f2 (by omega)
        refine ⟨?_, hdone⟩
        simp only [hs, hs1, if_true, if_false, Bool.false_eq_true]
        omega
      · have hs' : stallOf cpu = false := by
          cases hc : stallOf cpu
          · rfl
          · exact absurd hc hs
        have hphi1 : phi (step cpu) = m := by
          have := phi_step_go cpu hwf hl hs'
          omega
        obtain ⟨hcyc, hdone⟩ :=
          ih m (by omega) (step cpu) hphi1 (wf_step cpu hwf) f (by omega)
        refine ⟨?_, hdone⟩
        simp only [hs', Bool.false_eq_true, if_false]
        omega
    · have hl' : loopCond cpu = false := by
        cases hc : loopCond cpu
        · rfl
        · exact absurd hc hl
      have h0 : phi cpu = 0 := (loopCond_false_iff cpu).mp hl'
      cases fuel with
      | zero =>
        refine ⟨?_, ?_⟩
        · show (cpu, 0, 0).2.1 = k + (cpu, 0, 0).2.2
          simp
          omega
        · show loopCond (cpu, (0 : Nat), (0 : Nat)).1 = false
          exact hl'
      | succ f =>
        rw [run_succ_of_done cpu f hl']
        refine ⟨?_, hl'⟩
        simp
        omega

end Test3

namespace Test3

/-- The primed initial state of a nonempty well-formed program needs
exactly `N + 3` no-stall cycles. -/
theorem phi_primeCPU (prog : List Instruction) (hwf : ∀ i ∈ prog, i.valid = true)
    (h1 : 1 ≤ prog.length) : phi (primeCPU prog) = prog.length + 3 := by
  have hv : (primeCPU prog).pipeline_IF_ID.inst.valid = true := by
    show (fetch_stage (initCPU prog)).valid = true
    rw [fetch_stage_valid (initCPU prog) (by exact hwf)]
    simp [initCPU]
    omega
  unfold phi
  have hPC : (primeCPU prog).PC = 1 := rfl
  have hprog : (primeCPU prog).program = prog := rfl
  rw [hPC, hprog, hv]
  rcases Nat.lt_or_ge 1 prog.length with h | h
  · simp [h]
    omega
  · have h' : ¬ 1 < prog.length := Nat.not_lt.mpr h
    have hlen : prog.length = 1 := by omega
    simp [h', hlen]

/-! ### Concrete programs used by the testable properties -/

/-- `mov R1, 5` as parsed by `parse_mov`. -/
def mov_R1_5 : Instruction :=
  { op := OpCode.OP_MOV, rd := 1, rs1 := -1, rs2 := -1, imm := 5, valid := true }

/-- `add R2, R1, R1` as parsed by `parse_rtype`. -/
def add_R2_R1_R1 : Instruction :=
  { op := OpCode.OP_ADD, rd := 2, rs1 := 1, rs2 := 1, imm := 0, valid := true }

/-- `mul R3, R2, R1` as parsed by `parse_rtype`. -/
def mul_R3_R2_R1 : Instruction :=
  { op := OpCode.OP_MUL, rd := 3, rs1 := 2, rs2 := 1, imm := 0, valid := true }

/-- `store R1, 0(R0)` as parsed by `parse_store` (data in `rs1`, base in
`rs2`, no destination). -/
def store_R1_0_R0 : Instruction :=
  { op := OpCode.OP_STORE, rd := -1, rs1 := 1, rs2 := 0, imm := 0, valid := true }

/-- `load R2, 0(R0)` as parsed by `parse_load` (base in `rs1`). -/
def load_R2_0_R0 : Instruction :=
  { op := OpCode.OP_LOAD, rd := 2, rs1 := 0, rs2 := -1, imm := 0, valid := true }

/-- `load R2, 8(R0)` as parsed by `parse_load`. -/
def load_R2_8_R0 : Instruction :=
  { op := OpCode.OP_LOAD, rd := 2, rs1 := 0, rs2 := -1, imm := 8, valid := true }

/-- `mov R5, 7` as parsed by `parse_mov`. -/
def mov_R5_7 : Instruction :=
  { op := OpCode.OP_MOV, rd := 5, rs1 := -1, rs2 := -1, imm := 7, valid := true }

/-- `mov R6, 8` as parsed by `parse_mov`. -/
def mov_R6_8 : Instruction :=
  { op := OpCode.OP_MOV, rd := 6, rs1 := -1, rs2 := -1, imm := 8, valid := true }

/-- The three-instruction forwarding program of the spec. -/
def forwarding_prog : List Instruction := [mov_R1_5, add_R2_R1_R1, mul_R3_R2_R1]

/-- The two-instruction STORE-then-LOAD same-address program of the spec. -/
def store_load_prog : List Instruction := [store_R1_0_R0, load_R2_0_R0]

/-- A same-address STORE-then-LOAD pair preceded by two MOVs, so that an
older instruction is still in MEM/WB when the stall is taken. -/
def stall_with_wb_prog : List Instruction :=
  [mov_R5_7, mov_R6_8, store_R1_0_R0, load_R2_0_R0]

/-- The state in which the STORE-to-LOAD hazard of `store_load_prog` is
about to be detected (top of the second cycle). -/
def hazardState : CPU := stepN 1 (primeCPU store_load_prog)

end Test3

namespace Test3

/-! ### C1: operand resolution -/

/-- The operand-resolution rule exactly as the specification words it:
unused sentinel first, then the EX/MEM latch (valid instruction whose
destination matches and whose opcode is not LOAD), then the MEM/WB latch
(valid instruction whose destination matches), then the register file. -/
def resolveSpecC1 (cpu : CPU) (reg : Int) : Resolved :=
  if reg = REG_UNUSED then
    { value := 0, src := FwdSrc.SRC_NONE }
  else if cpu.pipeline_EX_MEM.inst.valid = true ∧ cpu.pipeline_EX_MEM.inst.rd = reg ∧
          cpu.pipeline_EX_MEM.inst.op ≠ OpCode.OP_LOAD then
    { value := cpu.pipeline_EX_MEM.alu_result, src := FwdSrc.SRC_MEM }
  else if cpu.pipeline_MEM_WB.inst.valid = true ∧ cpu.pipeline_MEM_WB.inst.rd = reg then
    { value := cpu.pipeline_MEM_WB.alu_result, src := FwdSrc.SRC_WB }
  else
    { value := cpu.R reg, src := FwdSrc.SRC_REG }

/-- Claim C1: for every register operand, `resolve_operand` returns
(0, NONE) on the unused sentinel; otherwise the EX/MEM latch's computed
result with MEM-stage provenance when EX/MEM holds a valid non-LOAD
instruction whose destination equals the operand; otherwise the MEM/WB
latch's computed result with WB-stage provenance when MEM/WB holds a
valid instruction whose destination equals the operand; otherwise the
register-file value — the EX/MEM path always shadowing the MEM/WB path. -/
theorem resolve_operand_matches_claim (cpu : CPU) (reg : Int) :
    resolve_operand cpu reg = resolveSpecC1 cpu reg := by
  unfold resolve_operand resolveSpecC1
  by_cases h0 : reg = REG_UNUSED
  · simp [h0]
  · simp only [h0, if_false]
    by_cases hE : cpu.pipeline_EX_MEM.inst.valid = true ∧
        cpu.pipeline_EX_MEM.inst.rd = reg ∧
        cpu.pipeline_EX_MEM.inst.op ≠ OpCode.OP_LOAD
    · have hE2 : cpu.pipeline_EX_MEM.inst.valid = true ∧
          cpu.pipeline_EX_MEM.inst.rd = reg ∧
          cpu.pipeline_EX_MEM.inst.rd ≠ REG_UNUSED ∧
          cpu.pipeline_EX_MEM.inst.op ≠ OpCode.OP_LOAD :=
        ⟨hE.1, hE.2.1, by rw [hE.2.1]; exact h0, hE.2.2⟩
      rw [if_pos hE2, if_pos hE]
    · have hE2 : ¬ (cpu.pipeline_EX_MEM.inst.valid = true ∧
          cpu.pipeline_EX_MEM.inst.rd = reg ∧
          cpu.pipeline_EX_MEM.inst.rd ≠ REG_UNUSED ∧
          cpu.pipeline_EX_MEM.inst.op ≠ OpCode.OP_LOAD) :=
        fun hc => hE ⟨hc.1, hc.2.1, hc.2.2.2⟩
      rw [if_neg hE2, if_neg hE]
      by_cases hW : cpu.pipeline_MEM_WB.inst.valid = true ∧
          cpu.pipeline_MEM_WB.inst.rd = reg
      · have hW2 : cpu.pipeline_MEM_WB.inst.valid = true ∧
            cpu.pipeline_MEM_WB.inst.rd = reg ∧
            cpu.pipeline_MEM_WB.inst.rd ≠ REG_UNUSED :=
          ⟨hW.1, hW.2, by rw [hW.2]; exact h0⟩
        rw [if_pos hW2, if_pos hW]
      · have hW2 : ¬ (cpu.pipeline_MEM_WB.inst.valid = true ∧
            cpu.pipeline_MEM_WB.inst.rd = reg ∧
            cpu.pipeline_MEM_WB.inst.rd ≠ REG_UNUSED) :=
          fun hc => hW ⟨hc.1, hc.2.1⟩
        rw [if_neg hW2, if_neg hW]

/-! ### C2: hazard and stall policy -/

/-- Claim C2: in every cycle the decode stage signals a stall exactly when
ID/EX holds a valid STORE and IF/ID holds a valid LOAD with the same base
register index and the same offset; decode is otherwise a pure
pass-through; on a stall the IF/ID latch is held unchanged, a bubble is
admitted into the EX stage's input latch instead of the held instruction,
and the program counter is not incremented; absent the stall the IF/ID
latch receives the fetched instruction and the PC advances while the
program remains. -/
theorem decode_stall_policy (cpu : CPU) :
    (stallOf cpu = true ↔
      (cpu.pipeline_ID_EX.inst.valid = true ∧
       cpu.pipeline_ID_EX.inst.op = OpCode.OP_STORE ∧
       cpu.pipeline_IF_ID.inst.valid = true ∧
       cpu.pipeline_IF_ID.inst.op = OpCode.OP_LOAD ∧
       cpu.pipeline_ID_EX.inst.rs2 = cpu.pipeline_IF_ID.inst.rs1 ∧
       cpu.pipeline_ID_EX.inst.imm = cpu.pipeline_IF_ID.inst.imm)) ∧
    (decode_stage cpu.pipeline_IF_ID cpu.pipeline_ID_EX).next = cpu.pipeline_IF_ID ∧
    (step cpu).pipeline_ID_EX =
      (if stallOf cpu then make_nop_latch else cpu.pipeline_IF_ID) ∧
    (step cpu).pipeline_IF_ID =
      (if stallOf cpu then cpu.pipeline_IF_ID
       else { cpu.pipeline_IF_ID with inst := fetch_stage cpu }) ∧
    (step cpu).PC =
      (if stallOf cpu then cpu.PC
       else if cpu.PC < cpu.program.length then cpu.PC + 1 else cpu.PC) :=
  ⟨stallOf_iff cpu, decode_stage_next _ _, step_pipeline_ID_EX cpu,
   step_pipeline_IF_ID cpu, step_PC cpu⟩

/-! ### C10: stalls are never consecutive -/

/-- Claim C10: if a stall is taken in one cycle then the ID/EX latch holds
a bubble at the start of the next cycle, so the next cycle cannot stall. -/
theorem stalls_never_consecutive (cpu : CPU) (h : stallOf cpu = true) :
    (step cpu).pipeline_ID_EX = make_nop_latch ∧ stallOf (step cpu) = false :=
  ⟨by rw [step_pipeline_ID_EX, h]; simp, stall_step_no_stall cpu h⟩

/-- Concrete instance of C10: the stall of the STORE-then-LOAD program is
taken in the second cycle and the following cycle does not stall. -/
theorem stalls_never_consecutive_witness :
    stallOf hazardState = true ∧ stallOf (step hazardState) = false :=
  ⟨by decide, (stalls_never_consecutive hazardState (by decide)).2⟩

end Test3

namespace Test3

/-! ### C4: drain and cycle count -/

/-- Counterexample to Claim C4 as stated: the empty program runs 0 cycles
(not 0 + 4), and a stall-free one-instruction program runs 4 cycles (not
1 + 4) — the first fetch is primed before the loop, so the fill/drain
overhead is 3 loop cycles, not 4. -/
theorem drain_property_counterexample :
    ¬ ((simulate ([] : List Instruction)).2.1 = 0 + 4) ∧
    (simulate [mov_R1_5]).2.2 = 0 ∧
    ¬ ((simulate [mov_R1_5]).2.1 = 1 + 4) :=
  ⟨by decide, by decide, by decide⟩

/-- Claim C4 (amended): for every loader-validated instruction sequence of
length N ≥ 1 the simulation terminates, with total cycles exactly
N + 3 + (number of stall cycles); a program of length 0 terminates after
exactly 0 cycles with registers, memory and the global arrays untouched. -/
theorem drain_property_amended (prog : List Instruction)
    (hwf : ∀ i ∈ prog, i.valid = true) :
    (1 ≤ prog.length →
      (simulate prog).2.1 = prog.length + 3 + (simulate prog).2.2 ∧
      loopCond (simulate prog).1 = false) ∧
    (prog.length = 0 →
      (simulate prog).2.1 = 0 ∧
      (simulate prog).1.R = (initCPU prog).R ∧
      (simulate prog).1.gmemory = (initCPU prog).gmemory ∧
      (simulate prog).1.gR = (initCPU prog).gR) := by
  constructor
  · intro h1
    have hwf2 : WFprog (primeCPU prog) := fun i hi => hwf i hi
    exact run_correct (prog.length + 3) (primeCPU prog)
      (phi_primeCPU prog hwf h1) hwf2 (2 * (prog.length + 4)) (by omega)
  · intro h0
    have hnil : prog = [] := List.length_eq_zero.mp h0
    subst hnil
    exact ⟨rfl, rfl, rfl, rfl⟩

/-- Concrete instances of C4 (amended): the one-instruction program takes
1 + 3 + 0 cycles, the empty program takes 0 cycles. -/
theorem drain_property_witness :
    (simulate [mov_R1_5]).2.1 = 1 + 3 + (simulate [mov_R1_5]).2.2 ∧
    (simulate ([] : List Instruction)).2.1 = 0 :=
  ⟨((drain_property_amended [mov_R1_5] (by decide)).1 (by decide)).1,
   ((drain_property_amended [] (by decide)).2 rfl).1⟩

/-! ### C7: bubbles, stalls and state mutation -/

/-- Counterexample to Claim C7 as stated: in the reachable fourth cycle of
`stall_with_wb_prog` a stall is taken while the older `mov R5, 7` sits in
MEM/WB, so that same cycle commits R5 := 7 — a stall-taking cycle does
not leave the register file unchanged. -/
theorem bubble_stall_counterexample :
    loopCond (primeCPU stall_with_wb_prog) = true ∧
    loopCond (stepN 1 (primeCPU stall_with_wb_prog)) = true ∧
    loopCond (stepN 2 (primeCPU stall_with_wb_prog)) = true ∧
    loopCond (stepN 3 (primeCPU stall_with_wb_prog)) = true ∧
    stallOf (stepN 3 (primeCPU stall_with_wb_prog)) = true ∧
    (stepN 3 (primeCPU stall_with_wb_prog)).R 5 = 0 ∧
    (stepN 4 (primeCPU stall_with_wb_prog)).R 5 = 7 := by
  decide

/-- Claim C7 (amended): a bubble latch is never a hazard source (no stall
when ID/EX or IF/ID holds an invalid instruction), never a forwarding
source (an invalid EX/MEM latch never supplies MEM-stage provenance; an
invalid MEM/WB latch never supplies WB-stage provenance), and never
writes a register (WB with an invalid MEM/WB latch is the identity); a
stall-taking cycle whose EX/MEM and MEM/WB latches also hold bubbles
leaves the register file, the global register array and the memory array
unchanged (in general a stall cycle may still commit writes of older
in-flight instructions, as the counterexample shows). -/
theorem bubble_invariant_amended (cpu : CPU) (reg : Int) :
    ((cpu.pipeline_ID_EX.inst.valid = false ∨ cpu.pipeline_IF_ID.inst.valid = false) →
      stallOf cpu = false) ∧
    (cpu.pipeline_EX_MEM.inst.valid = false →
      (resolve_operand cpu reg).src ≠ FwdSrc.SRC_MEM) ∧
    (cpu.pipeline_MEM_WB.inst.valid = false →
      (resolve_operand cpu reg).src ≠ FwdSrc.SRC_WB ∧ wb_stage cpu = cpu) ∧
    (stallOf cpu = true → cpu.pipeline_EX_MEM.inst.valid = false →
      cpu.pipeline_MEM_WB.inst.valid = false →
      (step cpu).R = cpu.R ∧ (step cpu).gR = cpu.gR ∧
      (step cpu).gmemory = cpu.gmemory) := by
  refine ⟨?_, ?_, ?_, ?_⟩
  · intro h
    cases hs : stallOf cpu
    · rfl
    · exfalso
      obtain ⟨h2, h1⟩ := stall_latches_valid cpu hs
      rcases h with h | h
      · simp [h] at h2
      · simp [h] at h1
  · intro h
    unfold resolve_operand
    split_ifs with c1 c2 c3
    · exact fun hx => FwdSrc.noConfusion hx
    · exact absurd c2.1 (by simp [h])
    · exact fun hx => FwdSrc.noConfusion hx
    · exact fun hx => FwdSrc.noConfusion hx
  · intro h
    constructor
    · unfold resolve_operand
      split_ifs with c1 c2 c3
      · exact fun hx => FwdSrc.noConfusion hx
      · exact fun hx => FwdSrc.noConfusion hx
      · exact absurd c3.1 (by simp [h])
      · exact fun hx => FwdSrc.noConfusion hx
    · unfold wb_stage
      rw [if_neg]
      intro hc
      simp [h] at hc
  · intro _ hE hW
    have hnc : ¬ (cpu.pipeline_MEM_WB.inst.valid = true ∧
        cpu.pipeline_MEM_WB.inst.op ≠ OpCode.OP_NOOP ∧
        cpu.pipeline_MEM_WB.inst.rd ≠ REG_UNUSED) := by
      intro hc
      simp [hW] at hc
    refine ⟨?_, ?_, ?_⟩
    · rw [step_R]
      unfold wb_stage
      rw [if_neg hnc]
    · rw [step_gR]
      unfold memory_stage
      rw [if_pos (Or.inl hE)]
    · rw [step_gmemory]
      unfold memory_stage
      rw [if_pos (Or.inl hE)]

/-- Concrete instances of C7 (amended): the all-bubble stall cycle of
`store_load_prog` leaves every array unchanged; a bubble in ID/EX blocks
the stall; bubbles in EX/MEM and MEM/WB block forwarding. -/
theorem bubble_invariant_witness :
    ((step hazardState).R = hazardState.R ∧ (step hazardState).gR = hazardState.gR ∧
     (step hazardState).gmemory = hazardState.gmemory) ∧
    stallOf (primeCPU store_load_prog) = false ∧
    (resolve_operand (primeCPU store_load_prog) 3).src ≠ FwdSrc.SRC_MEM ∧
    (resolve_operand (primeCPU store_load_prog) 3).src ≠ FwdSrc.SRC_WB :=
  ⟨(bubble_invariant_amended hazardState 0).2.2.2 (by decide) (by decide) (by decide),
   (bubble_invariant_amended (primeCPU store_load_prog) 3).1 (Or.inl (by decide)),
   (bubble_invariant_amended (primeCPU store_load_prog) 3).2.1 (by decide),
   ((bubble_invariant_amended (primeCPU store_load_prog) 3).2.2.1 (by decide)).1⟩

end Test3

namespace Test3

/-! ### C3: MEM-stage semantics for LOAD -/

/-- Evaluation of Claim C3's failing input, `load R2, 8(R0)` from the
all-zero state: EX computes the effective address 0 + 8 = 8, but the MEM
stage leaves the MEM/WB latch's result equal to that address (8) instead
of the loaded value (0); the loaded value is written to the global
register array instead, and WB then commits the address 8 into R2. -/
theorem memory_stage_load_commits_address :
    (stepN 3 (primeCPU [load_R2_8_R0])).pipeline_MEM_WB.inst.op = OpCode.OP_LOAD ∧
    (stepN 3 (primeCPU [load_R2_8_R0])).pipeline_MEM_WB.inst.valid = true ∧
    (stepN 3 (primeCPU [load_R2_8_R0])).pipeline_MEM_WB.alu_result = 8 ∧
    (stepN 3 (primeCPU [load_R2_8_R0])).gmemory 1008 = 0 ∧
    (simulate [load_R2_8_R0]).1.R 2 = 8 ∧
    (simulate [load_R2_8_R0]).1.gR 2 = 0 := by
  decide

/-! ### C5: STORE-to-LOAD ordering -/

/-- Claim C5: for `store R1, 0(R0)` immediately followed by
`load R2, 0(R0)`, the pipeline stalls exactly one cycle (detected in the
second cycle), and the value the LOAD delivers into R2 equals the value
the STORE wrote to memory (both are R1's value, 0, in the all-zero
initial state). -/
theorem store_load_ordering :
    (simulate store_load_prog).2.2 = 1 ∧
    stallOf (stepN 1 (primeCPU store_load_prog)) = true ∧
    (simulate store_load_prog).1.R 2 =
      (simulate store_load_prog).1.gmemory (get_register_address 0 + 0) ∧
    (simulate store_load_prog).1.R 2 = 0 := by
  decide

/-! ### C6: forwarding on back-to-back dependent ALU instructions -/

/-- Counterexample to Claim C6 as stated: the three-instruction
forwarding program runs 6 total cycles, not 7. -/
theorem forwarding_cycle_count_counterexample :
    ¬ ((simulate forwarding_prog).2.1 = 7) := by
  decide

/-- Claim C6 (amended): for `mov R1,5` then `add R2,R1,R1` then
`mul R3,R2,R1`, the simulation inserts no stalls, the final register file
holds R2 = 10 and R3 = 50 (each consumer reads the freshly computed
result via forwarding), and the total cycle count is 6. -/
theorem forwarding_correct_amended :
    (simulate forwarding_prog).2.2 = 0 ∧
    (simulate forwarding_prog).1.R 2 = 10 ∧
    (simulate forwarding_prog).1.R 3 = 50 ∧
    (simulate forwarding_prog).2.1 = 6 := by
  decide

/-! ### C8: WB frame condition and the STORE data path -/

/-- Evaluation of Claim C8's failing input, `mov R1, 5` then
`store R1, 0(R0)`: at the STORE's MEM cycle the EX/MEM latch carries the
forwarding-resolved store data `val_rs1 = 5` (and WB has committed
R1 = 5), yet the memory word written at the STORE's address receives 0 —
the stale global register array value, not the resolved data. -/
theorem store_writes_stale_global :
    (stepN 3 (primeCPU [mov_R1_5, store_R1_0_R0])).pipeline_EX_MEM.inst.op =
      OpCode.OP_STORE ∧
    (stepN 3 (primeCPU [mov_R1_5, store_R1_0_R0])).pipeline_EX_MEM.inst.valid = true ∧
    (stepN 3 (primeCPU [mov_R1_5, store_R1_0_R0])).pipeline_EX_MEM.val_rs1 = 5 ∧
    (stepN 4 (primeCPU [mov_R1_5, store_R1_0_R0])).R 1 = 5 ∧
    (stepN 4 (primeCPU [mov_R1_5, store_R1_0_R0])).gmemory
      (get_register_address 0 + 0) = 0 := by
  decide

end Test3

namespace Test3

/-! ### C9: precondition safety of the defensive assertions -/

/-- Well-formed instruction: all three register fields pass `reg_valid`
(the `parse_*` loader functions only admit such instructions). -/
def WFI (i : Instruction) : Prop :=
  reg_valid i.rd = true ∧ reg_valid i.rs1 = true ∧ reg_valid i.rs2 = true

instance (i : Instruction) : Decidable (WFI i) := by
  unfold WFI; infer_instance

/-- The `assert(reg_valid(...))` trio guarding the EX stage: it fires only
for a valid, non-NOP instruction. -/
def exAssertOk (l : StageLatch) : Prop :=
  (l.inst.valid = true ∧ l.inst.op ≠ OpCode.OP_NOOP) → WFI l.inst

/-- The `assert(PC >= 0 && PC <= inst_count)` of `fetch_stage` and
`advance_pipeline` (the lower bound is automatic for a natural PC). -/
def pcAssertOk (cpu : CPU) : Prop := cpu.PC ≤ cpu.program.length

/-- The `assert(reg_valid(w->rd))` of `wb_stage`, which fires only when a
write is about to be committed. -/
def wbAssertOk (cpu : CPU) : Prop :=
  (cpu.pipeline_MEM_WB.inst.valid = true ∧
   cpu.pipeline_MEM_WB.inst.op ≠ OpCode.OP_NOOP ∧
   cpu.pipeline_MEM_WB.inst.rd ≠ REG_UNUSED) →
  reg_valid cpu.pipeline_MEM_WB.inst.rd = true

/-- The engine invariant: PC in range and every latch holding a
well-formed instruction. -/
def EngineInv (cpu : CPU) : Prop :=
  cpu.PC ≤ cpu.program.length ∧
  WFI cpu.pipeline_IF_ID.inst ∧ WFI cpu.pipeline_ID_EX.inst ∧
  WFI cpu.pipeline_EX_MEM.inst ∧ WFI cpu.pipeline_MEM_WB.inst

instance (cpu : CPU) : Decidable (EngineInv cpu) := by
  unfold EngineInv; infer_instance

/-- Claim C9: when every program instruction has register indices that are
the unused sentinel or within range and the PC stays within
[0, instruction count] (the engine invariant), the defensive assertions
of WB, EX, IF and pipeline advancement all hold and the invariant is
preserved by every cycle — their error branches are unreachable — while
any valid non-NOP instruction with an out-of-range register reaching EX
makes the EX assertion fail (it is never silently tolerated). -/
theorem precondition_safety (cpu : CPU)
    (hprog : ∀ i ∈ cpu.program, WFI i) (hinv : EngineInv cpu) :
    (pcAssertOk cpu ∧ exAssertOk cpu.pipeline_ID_EX ∧ wbAssertOk cpu ∧
     EngineInv (step cpu)) ∧
    (∀ l : StageLatch, l.inst.valid = true → l.inst.op ≠ OpCode.OP_NOOP →
      reg_valid l.inst.rd = false → ¬ exAssertOk l) := by
  obtain ⟨hpc, hw1, hw2, hw3, hw4⟩ := hinv
  constructor
  · refine ⟨hpc, fun _ => hw2, fun _ => hw4.1, ?_, ?_, ?_, ?_, ?_⟩
    · rw [step_PC, step_program]
      split_ifs <;> omega
    · rw [step_pipeline_IF_ID]
      split_ifs with hs
      · exact hw1
      · show WFI (fetch_stage cpu)
        unfold fetch_stage
        split
        · exact hprog _ (cpu.program.get_mem _ _)
        · decide
    · rw [step_pipeline_ID_EX]
      split_ifs with hs
      · decide
      · exact hw1
    · rw [step_pipeline_EX_MEM_inst]
      exact hw2
    · rw [step_pipeline_MEM_WB, memory_stage_next_inst]
      exact hw3
  · intro l h1 h2 h3 hok
    have hv := (hok ⟨h1, h2⟩).1
    rw [h3] at hv
    exact Bool.noConfusion hv

/-- Concrete instance of C9: the primed one-instruction program satisfies
the invariant, so its PC and WB assertions hold. -/
theorem precondition_safety_witness :
    pcAssertOk (primeCPU [mov_R1_5]) ∧ wbAssertOk (primeCPU [mov_R1_5]) :=
  ⟨(precondition_safety (primeCPU [mov_R1_5]) (by decide) (by decide)).1.1,
   (precondition_safety (primeCPU [mov_R1_5]) (by decide) (by decide)).1.2.2.1⟩

end Test3
